import Mathlib

/-!
Verification model of the connectivity-resilience core of the
`measurement-probe` firmware.

The Lean definitions below are a shallow embedding of the C++ sources:

* `Core`      — CRC32 (`core/crc.hpp`, ESP ROM `esp_rom_crc32_le`) and the
  sleep-survivable token store (`core/rtc_storage.hpp`).
* `Transport` — the retrying transport decorator (`transport/retry.hpp`,
  `transport/transport.hpp`).
* `Cloud`     — the device-session state machine (`cloud/device_auth.hpp`)
  and the command polling service (`cloud/command_service.hpp`).
* `Network`   — the WiFi connection manager (`network/wifi_manager.cpp`,
  `network/wifi_types.hpp`).

Machine integers are modelled as `Nat`/`Int` with explicit `% 2 ^ 32`
where 32-bit wraparound matters.  External effects (the backend, the ESP-IDF
radio calls, timers) are modelled as explicit oracle arguments; network
activity is counted so that "zero network calls" claims are expressible.
Loops from the source are modelled with an explicit fuel argument that is
chosen large enough (the loop variable strictly increases and is bounded),
so the embedded functions remain executable by the kernel.
-/

namespace Core

/-- ESP-IDF error codes used by the modelled components (`esp_err.h`).
`esp_err_t` is a C `int`, hence `Int` (ESP_FAIL is -1). -/
def ESP_OK : Int := 0

/-- Generic failure code ESP_FAIL. -/
def ESP_FAIL : Int := -1

/-- Out-of-memory error code. -/
def ESP_ERR_NO_MEM : Int := 0x101

/-- Invalid-argument error code. -/
def ESP_ERR_INVALID_ARG : Int := 0x102

/-- Invalid-state error code. -/
def ESP_ERR_INVALID_STATE : Int := 0x103

/-- Invalid-size error code. -/
def ESP_ERR_INVALID_SIZE : Int := 0x104

/-- Not-found error code. -/
def ESP_ERR_NOT_FOUND : Int := 0x105

/-- Timeout error code. -/
def ESP_ERR_TIMEOUT : Int := 0x107

/-- Invalid-response error code. -/
def ESP_ERR_INVALID_RESPONSE : Int := 0x108

/-- WiFi "not connected" error code (`ESP_ERR_WIFI_BASE + 15`). -/
def ESP_ERR_WIFI_NOT_CONNECT : Int := 0x300F

/-- Reflected CRC-32 polynomial used by `esp_rom_crc32_le`. -/
def CRC_POLY : Nat := 0xEDB88320

/-- Seed of `core::Crc32` (`Crc32::DEFAULT_SEED` in `core/crc.hpp`). -/
def CRC_SEED : Nat := 0x9E83B3D1

/-- One bit-round of the little-endian CRC32:
`crc = (crc >> 1) ^ (crc & 1 ? 0xEDB88320 : 0)`. -/
def crcRound (s : Nat) : Nat :=
  (s / 2) ^^^ (if s % 2 = 1 then CRC_POLY else 0)

/-- Eight bit-rounds, i.e. one byte step after xoring the byte in:
the inner loop body of `esp_rom_crc32_le`. -/
def crcByte (s b : Nat) : Nat :=
  crcRound (crcRound (crcRound (crcRound
    (crcRound (crcRound (crcRound (crcRound (s ^^^ b))))))))

/-- Fold the byte step over a byte string. -/
def crcFold (s : Nat) (bs : List Nat) : Nat :=
  bs.foldl crcByte s

/-- The ESP ROM function `esp_rom_crc32_le(crc, buf, len)`:
it complements the incoming state, folds the bytes, and complements the
result (complement on `[0, 2^32)` is xor with `0xFFFFFFFF`). -/
def romCrc32le (crc : Nat) (bs : List Nat) : Nat :=
  crcFold (crc ^^^ 0xFFFFFFFF) bs ^^^ 0xFFFFFFFF

/-- Little-endian byte serialisation of a `uint16_t` value
(`Crc32::update(const T&)` hashes the object representation). -/
def leBytes2 (n : Nat) : List Nat :=
  [n % 256, n / 256 % 256]

/-- Little-endian byte serialisation of a 64-bit pattern. -/
def leBytes8 (u : Nat) : List Nat :=
  [u % 256, u / 256 % 256, u / 256 ^ 2 % 256, u / 256 ^ 3 % 256,
   u / 256 ^ 4 % 256, u / 256 ^ 5 % 256, u / 256 ^ 6 % 256, u / 256 ^ 7 % 256]

/-- Two's-complement 64-bit pattern of an `int64_t`. -/
def int64Pattern (i : Int) : Nat :=
  (i % (2 ^ 64 : Int)).toNat

/-- The checksum `Crc32::compute(length, as_bytes())` stored by
`RtcString::set`: seed, then the two bytes of the `uint16_t` length, then
the `length` payload bytes, each through `esp_rom_crc32_le`. -/
def crcOfLenBytes (len : Nat) (bs : List Nat) : Nat :=
  romCrc32le (romCrc32le CRC_SEED (leBytes2 len)) bs

/-- The checksum `Crc32::compute(epoch_ms)` used by `RtcTimestamp`. -/
def crcOfInt64 (i : Int) : Nat :=
  romCrc32le CRC_SEED (leBytes8 (int64Pattern i))

/-- Model of `core::RtcString` (`core/rtc_storage.hpp`): a CRC-guarded
string in RTC memory.  `bytes` models the first `length` bytes of the
`data` array (bytes at indices `≥ length` never influence `is_valid`,
`view`, `set` or `clear`), so `length` is `bytes.length`. -/
structure RtcString where
  crc : Nat
  bytes : List Nat
deriving DecidableEq, Repr

/-- Validity check of `RtcString`: nonzero length and stored CRC equal to
the CRC of (length, payload bytes). -/
def RtcString.is_valid (s : RtcString) : Bool :=
  decide (0 < s.bytes.length) && (s.crc == crcOfLenBytes s.bytes.length s.bytes)

/-- Result of `RtcString::set(str)`: the length is capped at
`MAX_VAR_DATA_SIZE - 1 = 2047` bytes and the CRC is recomputed.  (The C++
also writes a NUL terminator at index `length`, which is outside the
modelled `[0, length)` window.) -/
def RtcString.setFn (str : List Nat) : RtcString :=
  let bs := str.take 2047
  ⟨crcOfLenBytes bs.length bs, bs⟩

/-- Result of `RtcString::clear()`: `crc = 0`, `length = 0`. -/
def RtcString.clearFn : RtcString := ⟨0, []⟩

/-- Model of `core::RtcTimestamp`: a CRC-guarded `int64_t` epoch value in
milliseconds. -/
structure RtcTimestamp where
  crc : Nat
  epoch_ms : Int
deriving DecidableEq, Repr

/-- Validity of `RtcTimestamp`: stored CRC matches the value's CRC. -/
def RtcTimestamp.is_valid (t : RtcTimestamp) : Bool :=
  t.crc == crcOfInt64 t.epoch_ms

/-- Result of `RtcTimestamp::set`. -/
def RtcTimestamp.setFn (ms : Int) : RtcTimestamp :=
  ⟨crcOfInt64 ms, ms⟩

/-- Result of `RtcTimestamp::clear()`: only the CRC is zeroed, the stored
epoch value is left in place. -/
def RtcTimestamp.clearFn (t : RtcTimestamp) : RtcTimestamp :=
  ⟨0, t.epoch_ms⟩

/-- Model of `core::RtcAuthToken`: bearer token plus expiry, both
CRC-guarded, living in sleep-survivable memory. -/
structure RtcAuthToken where
  token : RtcString
  expires_at : RtcTimestamp
deriving DecidableEq, Repr

/-- Validity of `RtcAuthToken` at wall-clock time `now_ms` (milliseconds
since epoch): the token must be CRC-valid, and if an expiry is set
(expiry CRC valid) the current time must be strictly before it. -/
def RtcAuthToken.is_valid (t : RtcAuthToken) (now_ms : Int) : Bool :=
  t.token.is_valid &&
    (!t.expires_at.is_valid || decide (now_ms < t.expires_at.epoch_ms))

/-- Result of `RtcAuthToken::set(tok, exp)`: stores the token; a nonzero
expiry time point is stored, the zero time point clears the expiry. -/
def RtcAuthToken.setFn (t : RtcAuthToken) (tok : List Nat) (exp_ms : Int) :
    RtcAuthToken :=
  ⟨RtcString.setFn tok,
   if exp_ms ≠ 0 then RtcTimestamp.setFn exp_ms else t.expires_at.clearFn⟩

/-- Result of `RtcAuthToken::clear()`. -/
def RtcAuthToken.clearFn (t : RtcAuthToken) : RtcAuthToken :=
  ⟨RtcString.clearFn, t.expires_at.clearFn⟩

end Core

namespace Transport

/-- Model of `transport::RetryPolicy` (`transport/retry.hpp`).  The delay
fields (`initial_delay`, `max_delay`, `backoff_multiplier`) only feed the
blocking sleep in `wait_and_backoff`; they never influence which result is
returned nor how many attempts are made, so they are not part of this
model (the backoff arithmetic itself is modelled with
`Network.calculate_backoff` for the connection manager). -/
structure RetryPolicy where
  max_retries : Nat
  retry_on_timeout : Bool
  retry_on_server_error : Bool
  retry_on_connection_error : Bool
deriving DecidableEq, Repr

/-- Model of `transport::Response`: HTTP status (`uint16_t`) plus body. -/
structure Response where
  status_code : Nat
  body : List Nat
deriving DecidableEq, Repr

/-- Response check `is_server_error()`: status `>= 500`. -/
def Response.is_server_error (r : Response) : Bool :=
  decide (500 ≤ r.status_code)

/-- Response check `is_success()`: status in `[200, 300)`. -/
def Response.is_success (r : Response) : Bool :=
  decide (200 ≤ r.status_code) && decide (r.status_code < 300)

/-- Classification `RetryTransport::is_retryable_error`: timeout under the
timeout flag; invalid-state, generic failure and out-of-memory under the
connection-error flag; the ESP HTTP-client error range `0x7000..0x70FF`
under the connection-error flag; everything else is not retryable. -/
def is_retryable_error (p : RetryPolicy) (err : Int) : Bool :=
  if err = Core.ESP_ERR_TIMEOUT then
    p.retry_on_timeout
  else if err = Core.ESP_ERR_INVALID_STATE ∨ err = Core.ESP_FAIL ∨
      err = Core.ESP_ERR_NO_MEM then
    p.retry_on_connection_error
  else if (0x7000 : Int) ≤ err ∧ err ≤ 0x70FF then
    p.retry_on_connection_error
  else
    false

/-- Check `RetryTransport::should_retry`: `attempts < max_retries`. -/
def should_retry (p : RetryPolicy) (attempts : Nat) : Bool :=
  decide (attempts < p.max_retries)

/-- The retry loop of `RetryTransport::send`.  `oracle k` is the result of
the `k`-th invocation (0-based) of the wrapped transport's `send`;
`attempts` is the retry counter; `k` counts invocations made so far.  The
returned pair is (result of `send`, total number of invocations).  The
loop terminates because `attempts` strictly increases and retrying
requires `attempts < max_retries`; `fuel` only bounds the recursion and
the fuel-0 fallback (return the result without retrying) coincides with
the source behaviour whenever `fuel ≥ max_retries + 1 - attempts`, which
the entry point `send` guarantees. -/
def sendAux (p : RetryPolicy) (oracle : Nat → Except Int Response) :
    Nat → Nat → Nat → Except Int Response × Nat
  | 0, _, k => (oracle k, k + 1)
  | fuel + 1, attempts, k =>
    match oracle k with
    | .ok r =>
      if r.is_server_error && p.retry_on_server_error &&
          should_retry p attempts then
        sendAux p oracle fuel (attempts + 1) (k + 1)
      else
        (.ok r, k + 1)
    | .error e =>
      if is_retryable_error p e && should_retry p attempts then
        sendAux p oracle fuel (attempts + 1) (k + 1)
      else
        (.error e, k + 1)

/-- Model of `RetryTransport::send`: run the retry loop from attempt 0. -/
def send (p : RetryPolicy) (oracle : Nat → Except Int Response) :
    Except Int Response × Nat :=
  sendAux p oracle (p.max_retries + 1) 0 0

end Transport

namespace Cloud

/-- HTTP status constants from `cloud/config.hpp` (`cloud::status`). -/
def STATUS_NO_CONTENT : Int := 204

/-- HTTP 401 Unauthorized. -/
def STATUS_UNAUTHORIZED : Int := 401

/-- HTTP 403 Forbidden. -/
def STATUS_FORBIDDEN : Int := 403

/-- HTTP 429 Too Many Requests. -/
def STATUS_TOO_MANY_REQUESTS : Int := 429

/-- Characters used by the hand-rolled JSON scanners, written via
code points: `"`), `:`, `[`, the two braces, space, tab, NUL. -/
def qChar : Char := Char.ofNat 34

/-- Colon character. -/
def colonChar : Char := Char.ofNat 58

/-- Opening bracket character. -/
def lbrackChar : Char := Char.ofNat 91

/-- Opening brace character. -/
def lbraceChar : Char := Char.ofNat 123

/-- Closing brace character. -/
def rbraceChar : Char := Char.ofNat 125

/-- Space character. -/
def spaceChar : Char := Char.ofNat 32

/-- Tab character. -/
def tabChar : Char := Char.ofNat 9

/-- NUL character, used as the out-of-range default for indexing. -/
def nulChar : Char := Char.ofNat 0

/-- Check whether `pat` occurs in `hay` starting exactly at index `i`
(with the whole pattern in range, as `std::string_view::find` requires). -/
def matchAt (hay pat : List Char) (i : Nat) : Bool :=
  (hay.drop i).take pat.length == pat

/-- Scanning loop of `std::string_view::find(pat, start)`: try positions
`start, start+1, ...` while the pattern still fits.  The position
strictly increases and is bounded by `hay.length`, so
`fuel = hay.length + 1` never runs out. -/
def findSubAux (hay pat : List Char) : Nat → Nat → Option Nat
  | 0, _ => none
  | fuel + 1, i =>
    if i + pat.length ≤ hay.length then
      if matchAt hay pat i then some i else findSubAux hay pat fuel (i + 1)
    else
      none

/-- Model of `std::string_view::find(pat, start)`: index of the first
occurrence of `pat` at a position `≥ start`, or `none` (`npos`). -/
def findSub (hay pat : List Char) (start : Nat) : Option Nat :=
  findSubAux hay pat (hay.length + 1) start

/-- Model of `std::string_view::find(c, start)` for a single character. -/
def findCharFrom (hay : List Char) (c : Char) (start : Nat) : Option Nat :=
  findSub hay [c] start

/-- Slice `[a, b)` of a character list (`substr(a, b - a)`). -/
def slice (l : List Char) (a b : Nat) : List Char :=
  (l.drop a).take (b - a)

/-- Skip spaces and tabs (the whitespace loop of `parse_auth_response`);
fuel-bounded scan, position increases and is bounded by the length. -/
def skipWsAux (json : List Char) : Nat → Nat → Nat
  | 0, pos => pos
  | fuel + 1, pos =>
    if pos < json.length ∧
        (json.getD pos nulChar = spaceChar ∨ json.getD pos nulChar = tabChar) then
      skipWsAux json fuel (pos + 1)
    else
      pos

/-- Accumulate decimal digits (the digit loop of `parse_auth_response`:
`expires_in = expires_in * 10 + (c - '0')`).  The C++ accumulator is an
`int64_t`; wraparound of absurdly long digit strings is not modelled. -/
def readDigitsAux (json : List Char) : Nat → Nat → Int → Int
  | 0, _, acc => acc
  | fuel + 1, pos, acc =>
    if pos < json.length ∧ 48 ≤ (json.getD pos nulChar).toNat ∧
        (json.getD pos nulChar).toNat ≤ 57 then
      readDigitsAux json fuel (pos + 1)
        (acc * 10 + ((json.getD pos nulChar).toNat - 48 : Nat))
    else
      acc

/-- Search key `"token"` (with quotes) of `parse_auth_response`. -/
def tokenKey : List Char := ("\"token\"").toList

/-- Search key `"expires_in"` (with quotes) of `parse_auth_response`. -/
def expiresKey : List Char := ("\"expires_in\"").toList

/-- Model of `DeviceAuthProvider::parse_auth_response` without the token
store side effect: extract the token text and the absolute expiry time in
epoch-milliseconds (`now + expires_in seconds`, default 3600 s).  Returns
`ESP_ERR_INVALID_RESPONSE` exactly when the quoted token value cannot be
located. -/
def parse_auth_response (json : List Char) (now_ms : Int) :
    Except Int (List Char × Int) :=
  match findSub json tokenKey 0 with
  | none => .error Core.ESP_ERR_INVALID_RESPONSE
  | some token_pos =>
    match findCharFrom json colonChar token_pos with
    | none => .error Core.ESP_ERR_INVALID_RESPONSE
    | some colon =>
      match findCharFrom json qChar colon with
      | none => .error Core.ESP_ERR_INVALID_RESPONSE
      | some quote_start =>
        match findCharFrom json qChar (quote_start + 1) with
        | none => .error Core.ESP_ERR_INVALID_RESPONSE
        | some quote_end =>
          let token := slice json (quote_start + 1) quote_end
          let expires_in : Int :=
            match findSub json expiresKey 0 with
            | none => 3600
            | some expires_pos =>
              match findCharFrom json colonChar expires_pos with
              | none => 3600
              | some num_colon =>
                let ds := skipWsAux json (json.length + 1) (num_colon + 1)
                readDigitsAux json (json.length + 1) ds 0
          .ok (token, now_ms + expires_in * 1000)

end Cloud

namespace Cloud

/-- Auth session states (`cloud::AuthState`). -/
inductive AuthState where
  | Unauthenticated
  | Authenticated
  | TokenExpired
  | Revoked
deriving DecidableEq, Repr

/-- Auth error codes (`cloud::AuthError`). -/
inductive AuthError where
  | None
  | NoCredentials
  | NetworkError
  | InvalidCredentials
  | DeviceRevoked
  | RateLimited
  | ParseError
  | ServerError
deriving DecidableEq, Repr

/-- Result of `DeviceAuthProvider::authenticate` (`cloud::AuthResult`). -/
structure AuthResult where
  state : AuthState
  error : AuthError
deriving DecidableEq, Repr

/-- Response of one `HttpClient::perform` call: status code and body. -/
structure HttpResp where
  status_code : Int
  body : List Char
deriving DecidableEq, Repr

/-- Byte view of a character string as hashed by the RTC store (tokens in
this model are ASCII; each char contributes one byte). -/
def charBytes (s : List Char) : List Nat :=
  s.map (fun c => c.toNat % 256)

/-- State of a `DeviceAuthProvider` (`cloud/device_auth.hpp`): the
construction-time credentials (characters up to the NUL terminator; the
reference `creds_` never changes), the RTC token slot (`none` models a
null `rtc_token_` pointer), the session state and the last error. -/
structure AuthProv where
  device_id : List Char
  secret : List Char
  token : Option Core.RtcAuthToken
  state : AuthState
  last_error : AuthError
deriving DecidableEq, Repr

/-- Check `DeviceCredentials::is_valid`: both strings nonempty. -/
def credsValid (ap : AuthProv) : Bool :=
  !ap.device_id.isEmpty && !ap.secret.isEmpty

/-- Length of the JSON body built by `build_auth_json`:
28 static characters of `{"device_id":"...","secret":"..."}` plus the two
field values. -/
def authJsonLen (ap : AuthProv) : Nat :=
  28 + ap.device_id.length + ap.secret.length

/-- Model of `DeviceAuthProvider::handle_auth_response(status, body)` at
time `now_ms`: 403 marks the device revoked, 401 signals invalid
credentials, 429 rate-limiting, any other non-2xx a server error;
a 2xx response is parsed, the token stored in the RTC slot (when the slot
pointer is non-null) and the state set to `Authenticated`. -/
def handle_auth_response (ap : AuthProv) (now_ms : Int) (status : Int)
    (body : List Char) : Except Int Unit × AuthProv :=
  if status = STATUS_FORBIDDEN then
    (.error Core.ESP_ERR_INVALID_STATE,
     { ap with state := .Revoked, last_error := .DeviceRevoked })
  else if status = STATUS_UNAUTHORIZED then
    (.error Core.ESP_ERR_INVALID_ARG, { ap with last_error := .InvalidCredentials })
  else if status = STATUS_TOO_MANY_REQUESTS then
    (.error Core.ESP_ERR_INVALID_STATE, { ap with last_error := .RateLimited })
  else if status < 200 ∨ 300 ≤ status then
    (.error Core.ESP_FAIL, { ap with last_error := .ServerError })
  else
    match parse_auth_response body now_ms with
    | .error e => (.error e, { ap with last_error := .ParseError })
    | .ok (tok, exp_ms) =>
      (.ok (),
       { ap with
         token := ap.token.map (fun t => t.setFn (charBytes tok) exp_ms),
         state := .Authenticated,
         last_error := .None })

/-- Model of `DeviceAuthProvider::do_authenticate`.  `client_ok` is
whether the HTTP client could be constructed; `perform` is the backend's
answer to the POST `/auth/device` request.  The third component counts
network calls (requests actually sent). -/
def do_authenticate (ap : AuthProv) (now_ms : Int) (client_ok : Bool)
    (perform : Except Int HttpResp) : Except Int Unit × AuthProv × Nat :=
  if !credsValid ap then
    (.error Core.ESP_ERR_INVALID_STATE, { ap with last_error := .NoCredentials }, 0)
  else if !client_ok then
    (.error Core.ESP_FAIL, { ap with last_error := .NetworkError }, 0)
  else if 256 ≤ authJsonLen ap then
    (.error Core.ESP_ERR_INVALID_SIZE, { ap with last_error := .ParseError }, 0)
  else
    match perform with
    | .error e => (.error e, { ap with last_error := .NetworkError }, 1)
    | .ok resp =>
      let r := handle_auth_response ap now_ms resp.status_code resp.body
      (r.1, r.2, 1)

/-- Slow path of `authenticate`: run `do_authenticate`; on failure report
the (possibly updated) session state and last error, on success report
`Authenticated`. -/
def authenticateSlow (ap : AuthProv) (now_ms : Int) (client_ok : Bool)
    (perform : Except Int HttpResp) : AuthResult × AuthProv × Nat :=
  match do_authenticate ap now_ms client_ok perform with
  | (.error _, ap2, n) => (⟨ap2.state, ap2.last_error⟩, ap2, n)
  | (.ok _, ap2, n) => (⟨.Authenticated, .None⟩, ap2, n)

/-- Model of `DeviceAuthProvider::authenticate`: if the RTC slot holds a
currently valid token, short-circuit to `Authenticated` without touching
the network; otherwise run the full credential exchange.  Returns the
`AuthResult`, the new provider state, and the number of network calls. -/
def authenticate (ap : AuthProv) (now_ms : Int) (client_ok : Bool)
    (perform : Except Int HttpResp) : AuthResult × AuthProv × Nat :=
  match ap.token with
  | some tok =>
    if tok.is_valid now_ms then
      (⟨.Authenticated, .None⟩, { ap with state := .Authenticated }, 0)
    else
      authenticateSlow ap now_ms client_ok perform
  | none => authenticateSlow ap now_ms client_ok perform

/-- Model of `DeviceAuthProvider::handle_response_status(code)`: a 401
clears the RTC token and marks the session `TokenExpired`; a 403 clears
the token and marks it `Revoked`; every other status does nothing. -/
def handle_response_status (ap : AuthProv) (code : Int) : AuthProv :=
  if code = STATUS_UNAUTHORIZED then
    { ap with token := ap.token.map (·.clearFn), state := .TokenExpired }
  else if code = STATUS_FORBIDDEN then
    { ap with token := ap.token.map (·.clearFn), state := .Revoked }
  else
    ap

end Cloud

namespace Cloud

/-- Cloud error codes (`cloud::CloudError` in `cloud_client.hpp`). -/
inductive CloudError where
  | None
  | NotInitialized
  | NotAuthenticated
  | DeviceRevoked
  | NetworkError
  | ServerError
  | ParseError
  | RateLimited
deriving DecidableEq, Repr

/-- Command types known to the firmware (`cloud::CommandType`). -/
inductive CommandType where
  | Unknown
  | Reboot
  | FactoryReset
deriving DecidableEq, Repr

/-- Model of `cloud::parse_command_type`. -/
def parse_command_type (s : List Char) : CommandType :=
  if s = ("reboot").toList then .Reboot
  else if s = ("factory_reset").toList then .FactoryReset
  else .Unknown

/-- Capacity of a `CommandBuffer` (`cloud::MAX_COMMANDS`). -/
def MAX_COMMANDS : Nat := 8

/-- Model of `cloud::Command`: `id` and `payload` model the characters
before the NUL terminator of the fixed arrays (capacities 36 and 255). -/
structure Command where
  id : List Char
  type : CommandType
  payload : List Char
  expires_at : Int
deriving DecidableEq, Repr

/-- Model of `ApiResponse` (`cloud_client.hpp`). -/
structure ApiResponse where
  success : Bool
  status_code : Int
  error : CloudError
  body : List Char
deriving DecidableEq, Repr

/-- Model of `CommandsResult` (`command_service.hpp`). -/
structure CommandsResult where
  success : Bool
  error : CloudError
deriving DecidableEq, Repr

/-- The brace-matching scan of `parse_commands`/`parse_command`:
starting at `pos` with nesting `depth`, advance while inside the string
and the depth is positive.  Returns the final position and depth.  The
position strictly increases and is bounded by the length, so
`fuel = length + 1` suffices. -/
def braceScanAux (json : List Char) : Nat → Nat → Nat → Nat × Nat
  | 0, pos, depth => (pos, depth)
  | fuel + 1, pos, depth =>
    if pos < json.length ∧ 0 < depth then
      let c := json.getD pos nulChar
      braceScanAux json fuel (pos + 1)
        (if c = lbraceChar then depth + 1
         else if c = rbraceChar then depth - 1
         else depth)
    else
      (pos, depth)

/-- The field-scanning loop of `CommandService::extract_field`: walk
quote pairs until one encloses `name`, then return the next quoted value
after the following colon; empty when not found.  Fuel as above (the scan
position advances past each closing quote). -/
def extractFieldAux (json name : List Char) : Nat → Nat → List Char
  | 0, _ => []
  | fuel + 1, pos =>
    if pos < json.length then
      match findCharFrom json qChar pos with
      | none => []
      | some quote =>
        match findCharFrom json qChar (quote + 1) with
        | none => []
        | some end_quote =>
          if slice json (quote + 1) end_quote = name then
            match findCharFrom json colonChar end_quote with
            | none => []
            | some colon =>
              match findCharFrom json qChar colon with
              | none => []
              | some val_quote =>
                match findCharFrom json qChar (val_quote + 1) with
                | none => []
                | some val_end => slice json (val_quote + 1) val_end
          else
            extractFieldAux json name fuel (end_quote + 1)
    else
      []

/-- Model of `CommandService::extract_field`. -/
def extract_field (json name : List Char) : List Char :=
  extractFieldAux json name (json.length + 1) 0

/-- Search key `"payload"` of `parse_command`. -/
def payloadKey : List Char := ("\"payload\"").toList

/-- Search key `"data"` of `parse_commands`. -/
def dataKey : List Char := ("\"data\"").toList

/-- The space-skipping loop of `parse_command` (only `' '`). -/
def skipSpaceAux (json : List Char) : Nat → Nat → Nat
  | 0, pos => pos
  | fuel + 1, pos =>
    if pos < json.length ∧ json.getD pos nulChar = spaceChar then
      skipSpaceAux json fuel (pos + 1)
    else
      pos

/-- Model of `CommandService::parse_command`: `none` when the `id` field
is missing/empty (the C++ returns `false`), otherwise the parsed command.
`set_id`/`set_payload` truncate to the fixed capacities; the payload is
the brace-delimited object after `"payload":` when present.  The command
expiry field is never filled by the parser. -/
def parse_command (json : List Char) : Option Command :=
  let id := extract_field json (("id").toList)
  if id.isEmpty then
    none
  else
    let ty := parse_command_type (extract_field json (("type").toList))
    let payload :=
      match findSub json payloadKey 0 with
      | none => []
      | some payload_pos =>
        match findCharFrom json colonChar payload_pos with
        | none => []
        | some colon =>
          let start := skipSpaceAux json (json.length + 1) (colon + 1)
          if start < json.length ∧ json.getD start nulChar = lbraceChar then
            let scanned := braceScanAux json (json.length + 1) (start + 1) 1
            slice json start scanned.1
          else
            []
    some ⟨id.take 36, ty, payload.take 255, 0⟩

/-- The object loop of `CommandService::parse_commands`: find the next
`{`, scan to its matching `}` (unbalanced braces end the loop), parse the
object, and continue after it while the buffer has room.  The position
strictly increases each iteration, so `fuel = length + 1` suffices. -/
def parseLoopAux (json : List Char) : Nat → Nat → List Command → List Command
  | 0, _, acc => acc
  | fuel + 1, pos, acc =>
    if pos < json.length ∧ acc.length < MAX_COMMANDS then
      match findCharFrom json lbraceChar pos with
      | none => acc
      | some obj_start =>
        let scanned := braceScanAux json (json.length + 1) (obj_start + 1) 1
        if scanned.2 ≠ 0 then
          acc
        else
          let obj := slice json obj_start scanned.1
          let acc2 :=
            match parse_command obj with
            | some cmd => acc ++ [cmd]
            | none => acc
          parseLoopAux json fuel scanned.1 acc2
    else
      acc

/-- Model of `CommandService::parse_commands`: `none` (the C++ `false`)
when the `"data"` key or the `[` that starts its array cannot be found;
otherwise the commands collected by the bounded object loop. -/
def parse_commands (json : List Char) : Option (List Command) :=
  match findSub json dataKey 0 with
  | none => none
  | some data_pos =>
    match findCharFrom json lbrackChar data_pos with
    | none => none
    | some array_start =>
      some (parseLoopAux json (json.length + 1) (array_start + 1) [])

/-- HTTP method of a client request (`transport::HttpMethod`). -/
inductive HttpMethod where
  | Get
  | Post
  | Put
  | Delete
  | Patch
deriving DecidableEq, Repr

/-- Shape of the one request a `poll` issues through `CloudClient`. -/
structure PollRequest where
  method : HttpMethod
  path : List Char
  query : List (List Char × List Char)
deriving DecidableEq, Repr

/-- The request issued by `CommandService::poll`: a GET of
`endpoints::COMMANDS` with the single query parameter `status=pending`. -/
def pollRequest : PollRequest :=
  ⟨.Get, ("/commands").toList, [(("status").toList, ("pending").toList)]⟩

/-- Model of `CommandService::poll(buffer)`.  `buf` is the incoming
buffer contents (cleared first), `response` the answer of the one
`client_.get` call.  Returns the poll result and the final buffer
contents: failure propagates the client error with an empty buffer; 204
or an empty body is success with zero commands; otherwise the body is
parsed — `ParseError` exactly when the expected structure is missing. -/
def poll (buf : List Command) (response : ApiResponse) :
    CommandsResult × List Command :=
  let cleared : List Command := []
  if !response.success then
    (⟨false, response.error⟩, cleared)
  else if response.status_code = STATUS_NO_CONTENT ∨ response.body.isEmpty then
    (⟨true, .None⟩, cleared)
  else
    match parse_commands response.body with
    | none => (⟨false, .ParseError⟩, cleared)
    | some cmds => (⟨true, .None⟩, cmds)

end Cloud

namespace Network

/-- WiFi manager states (`network::WifiState`). -/
inductive WifiState where
  | Idle
  | Disconnected
  | Connecting
  | Connected
  | Provisioning
  | Failed
deriving DecidableEq, Repr

/-- Events published on the network event bus (`network::NetworkEvent`,
extended with the two provisioning-timeout/BLE notifications that
`wifi_manager.cpp` also posts). -/
inductive NetworkEvent where
  | WifiConnected
  | WifiDisconnected
  | WifiConnectionFailed
  | ProvisioningStarted
  | ProvisioningComplete
  | ProvisioningFailed
deriving DecidableEq, Repr

/-- Model of `network::WifiConfig`: `max_retries` is a `uint8_t`
(0 = unlimited), the backoff bounds are `uint32_t` milliseconds, and the
multiplier is the fixed constant `kBackoffMultiplier = 2`. -/
structure WifiConfig where
  max_retries : Nat
  initial_backoff_ms : Nat
  max_backoff_ms : Nat
deriving DecidableEq, Repr

/-- The loop of `WifiManager::calculate_backoff`: starting from the
initial delay, double (in `uint32_t` arithmetic, i.e. modulo `2 ^ 32`)
once per completed retry while the accumulator is still below the
configured maximum. -/
def backoffLoop (maxB : Nat) : Nat → Nat → Nat
  | 0, b => b
  | n + 1, b =>
    if b < maxB then backoffLoop maxB n (b * 2 % 2 ^ 32) else b

/-- Model of `WifiManager::calculate_backoff` as a function of the
current retry count: the loop result clamped to the maximum. -/
def calculate_backoff (cfg : WifiConfig) (retry_count : Nat) : Nat :=
  min (backoffLoop cfg.max_backoff_ms retry_count cfg.initial_backoff_ms)
    cfg.max_backoff_ms

/-- Observable state of a `WifiManager` used by the modelled paths:
the connection state machine, the retry counter, whether `pending_creds_`
holds valid credentials, whether the reconnect / provisioning-timeout
timers are armed, and whether a provisioning session is active.
`scheduled` counts reconnect-timer starts and `events` logs published
network events: both are history variables recording the side effects the
claims talk about.  `ConnectionInfo` (addresses/RSSI) is not modelled —
no claim below reads it. -/
structure WifiSt where
  state : WifiState
  retry_count : Nat
  pending_valid : Bool
  reconnect_timer : Bool
  prov_active : Bool
  prov_timer : Bool
  scheduled : Nat
  events : List NetworkEvent
deriving DecidableEq, Repr

/-- Model of `WifiManager::set_state` (the state-change callback has no
modelled observable beyond the state itself). -/
def set_state (s : WifiSt) (new_state : WifiState) : WifiSt :=
  { s with state := new_state }

/-- Model of `WifiManager::reset_retry_state`: zero the retry counter and
stop a pending reconnect timer. -/
def reset_retry_state (s : WifiSt) : WifiSt :=
  { s with retry_count := 0, reconnect_timer := false }

/-- Model of `WifiManager::schedule_reconnect`: nothing without pending
credentials; when the retry budget (`max_retries ≠ 0`) is exhausted, go
to `Failed` and publish the connection-failed event; otherwise increment
the counter and arm the one-shot reconnect timer (the timer delay is the
backoff value, which does not affect the transition structure). -/
def schedule_reconnect (cfg : WifiConfig) (s : WifiSt) : WifiSt :=
  if !s.pending_valid then
    s
  else if cfg.max_retries ≠ 0 ∧ cfg.max_retries ≤ s.retry_count then
    let s2 := set_state s .Failed
    { s2 with events := s2.events ++ [.WifiConnectionFailed] }
  else
    { s with
      retry_count := s.retry_count + 1,
      reconnect_timer := true,
      scheduled := s.scheduled + 1 }

/-- Model of the `WIFI_EVENT_STA_DISCONNECTED` branch of
`WifiManager::wifi_event_handler`: ignored while provisioning; otherwise
clear the connection info, go to `Disconnected`, publish the
disconnected event, and schedule a reconnect with the current backoff. -/
def handle_disconnect (cfg : WifiConfig) (s : WifiSt) : WifiSt :=
  if s.state = .Provisioning then
    s
  else
    let s2 := set_state s .Disconnected
    let s3 := { s2 with events := s2.events ++ [.WifiDisconnected] }
    schedule_reconnect cfg s3

/-- Model of the `IP_EVENT_STA_GOT_IP` branch of
`WifiManager::ip_event_handler`: store the connection info (not
modelled), reset the retry state, go to `Connected` and publish the
connected event. -/
def handle_got_ip (s : WifiSt) : WifiSt :=
  let s2 := reset_retry_state s
  let s3 := set_state s2 .Connected
  { s3 with events := s3.events ++ [.WifiConnected] }

/-- Iterate `n` unexpected-disconnect events. -/
def runDisc (cfg : WifiConfig) (s : WifiSt) : Nat → WifiSt
  | 0 => s
  | n + 1 => handle_disconnect cfg (runDisc cfg s n)

/-- Model of `network::ProvisioningConfig`: the proof-of-possession
C-string (`none` = null pointer, the list holds the characters before the
NUL terminator) and the session timeout.  `device_name_prefix` and
`service_uuid` only shape the advertised BLE identity and are not
modelled. -/
structure ProvisioningConfig where
  pop : Option (List Char)
  timeout_sec : Nat
deriving DecidableEq, Repr

/-- The proof-of-possession emptiness test of `start_provisioning`:
`config.pop == nullptr || config.pop[0] == '\0'`. -/
def popEmpty (pop : Option (List Char)) : Bool :=
  match pop with
  | none => true
  | some l => l.isEmpty

/-- Results of the ESP-IDF calls made by the provisioning path, as an
oracle: `esp_wifi_disconnect`, `wifi_prov_mgr_init` and
`wifi_prov_mgr_start_provisioning` (0 = `ESP_OK`). -/
structure ProvOracle where
  wifi_disconnect_err : Int
  mgr_init_err : Int
  mgr_start_err : Int
deriving DecidableEq, Repr

/-- Model of `WifiManager::stop_provisioning`: a no-op unless currently
provisioning; otherwise stop the timeout timer, tear the session down and
go to `Disconnected`. -/
def stop_provisioningFn (s : WifiSt) : WifiSt :=
  if s.state ≠ .Provisioning then
    s
  else
    set_state { s with prov_timer := false, prov_active := false } .Disconnected

/-- Model of `WifiManager::disconnect` for an initialized manager:
stop provisioning when active, reset the retry state, issue the link
disconnect (`wifi_err` is its result; `ESP_ERR_WIFI_NOT_CONNECT` is
tolerated) and, unless that failed, go to `Disconnected`. -/
def disconnectFn (wifi_err : Int) (s : WifiSt) : Except Int Unit × WifiSt :=
  let s2 := if s.state = .Provisioning then stop_provisioningFn s else s
  let s3 := reset_retry_state s2
  if wifi_err ≠ Core.ESP_OK ∧ wifi_err ≠ Core.ESP_ERR_WIFI_NOT_CONNECT then
    (.error wifi_err, s3)
  else
    (.ok (), set_state s3 .Disconnected)

/-- Model of `WifiManager::start_provisioning` for a manager whose
`initialized_` flag is `initialized`.  The proof-of-possession guard
comes first and returns `ESP_ERR_INVALID_ARG` before anything is
touched; then an active link is disconnected, the provisioning manager
is initialized and started (failures propagate the oracle's error code),
the timeout timer is armed when a timeout is configured, the state
becomes `Provisioning` and the started event is published. -/
def start_provisioningFn (initialized : Bool) (cfg : ProvisioningConfig)
    (o : ProvOracle) (s : WifiSt) : Except Int Unit × WifiSt :=
  if !initialized then
    (.error Core.ESP_ERR_INVALID_STATE, s)
  else if popEmpty cfg.pop then
    (.error Core.ESP_ERR_INVALID_ARG, s)
  else
    let s1 :=
      if s.state = .Connected then (disconnectFn o.wifi_disconnect_err s).2 else s
    if o.mgr_init_err ≠ Core.ESP_OK then
      (.error o.mgr_init_err, s1)
    else if o.mgr_start_err ≠ Core.ESP_OK then
      (.error o.mgr_start_err, s1)
    else
      let s2 := { s1 with prov_active := true }
      let s3 := if 0 < cfg.timeout_sec then { s2 with prov_timer := true } else s2
      let s4 := set_state s3 .Provisioning
      (.ok (), { s4 with events := s4.events ++ [.ProvisioningStarted] })

end Network

namespace Fixtures

/-- Provider freshly constructed with credentials `d`/`s`, a non-null RTC
token slot in its cold-boot zeroed state, and no session yet. -/
def apInit : Cloud.AuthProv :=
  ⟨("d").toList, ("s").toList, some ⟨⟨0, []⟩, ⟨0, 0⟩⟩, .Unauthenticated, .None⟩

/-- The provider after the backend answered some request with 403:
`handle_response_status` marks it revoked and clears the token. -/
def apRevoked : Cloud.AuthProv :=
  Cloud.handle_response_status apInit Cloud.STATUS_FORBIDDEN

/-- A well-formed 200-response body carrying a token. -/
def body200 : List Char := ("\x7b\"token\":\"t\"\x7d").toList

/-- Retry policy with `max_retries = 2` and all eligibility flags set. -/
def policyTwo : Transport.RetryPolicy := ⟨2, true, true, true⟩

/-- Wrapped transport that times out twice, then succeeds. -/
def oracleFlaky : Nat → Except Int Transport.Response := fun k =>
  if k < 2 then .error Core.ESP_ERR_TIMEOUT else .ok ⟨200, []⟩

/-- Wrapped transport that fails with a non-retryable error code. -/
def oracleFatal : Nat → Except Int Transport.Response := fun _ =>
  .error Core.ESP_ERR_INVALID_ARG

/-- Wrapped transport whose call always yields HTTP 503. -/
def oracle503 : Nat → Except Int Transport.Response := fun _ => .ok ⟨503, []⟩

/-- WiFi configuration whose bounds overflow `uint32_t` doubling:
`initial = 3000000000`, `max = 4294967295`. -/
def cfgOverflow : Network.WifiConfig := ⟨0, 3000000000, 4294967295⟩

/-- A token freshly written by `set` ("hi", expiry at epoch+5000 ms). -/
def tokenFresh : Core.RtcAuthToken :=
  Core.RtcAuthToken.setFn ⟨⟨0, []⟩, ⟨0, 0⟩⟩ [104, 105] 5000

/-- Provider holding the fresh valid token. -/
def apFresh : Cloud.AuthProv :=
  ⟨("d").toList, ("s").toList, some tokenFresh, .Unauthenticated, .None⟩

/-- WiFi configuration with `max_retries = 3` and default backoff. -/
def cfgRetries3 : Network.WifiConfig := ⟨3, 1000, 60000⟩

/-- Manager state `Disconnected` with pending credentials and a zero
retry counter. -/
def wifiInit : Network.WifiSt := ⟨.Disconnected, 0, true, false, false, false, 0, []⟩

/-- A 204 No Content response. -/
def resp204 : Cloud.ApiResponse := ⟨true, 204, .None, []⟩

/-- Body listing nine commands (one more than the buffer capacity). -/
def bodyNine : List Char :=
  ("\x7b\"data\":[\x7b\"id\":\"a\"\x7d,\x7b\"id\":\"b\"\x7d,\x7b\"id\":\"c\"\x7d,\x7b\"id\":\"d\"\x7d,\x7b\"id\":\"e\"\x7d,\x7b\"id\":\"f\"\x7d,\x7b\"id\":\"g\"\x7d,\x7b\"id\":\"h\"\x7d,\x7b\"id\":\"i\"\x7d]\x7d").toList

/-- A 200 response carrying the nine-command body. -/
def respNine : Cloud.ApiResponse := ⟨true, 200, .None, bodyNine⟩

/-- Provisioning configuration with an empty proof-of-possession. -/
def cfgNoPop : Network.ProvisioningConfig := ⟨some [], 300⟩

/-- Provisioning oracle where all the ESP-IDF calls succeed. -/
def provOracleOk : Network.ProvOracle := ⟨0, 0, 0⟩

/-- A token written by `set` with an empty string and expiry 1000: its
stored CRC matches the recomputed one, yet `length = 0`. -/
def tokenEmptySet : Core.RtcAuthToken :=
  Core.RtcAuthToken.setFn ⟨⟨0, []⟩, ⟨0, 0⟩⟩ [] 1000

end Fixtures

namespace Core

/-- The CRC round keeps the state inside 32 bits. -/
theorem crcRound_lt {s : Nat} (h : s < 2 ^ 32) : crcRound s < 2 ^ 32 := by
  unfold crcRound
  have h1 : s / 2 < 2 ^ 32 := lt_of_le_of_lt (Nat.div_le_self s 2) h
  split
  · exact Nat.xor_lt_two_pow h1 (by decide)
  · simpa using h1

/-- Xoring the polynomial into a sub-`2^31` state sets bit 31. -/
theorem crcRound_hi {a : Nat} (h : a < 2 ^ 31) : 2 ^ 31 ≤ a ^^^ CRC_POLY := by
  by_contra hlt
  push_neg at hlt
  have h31 : (a ^^^ CRC_POLY).testBit 31 = false := Nat.testBit_lt_two_pow hlt
  have ha : a.testBit 31 = false := Nat.testBit_lt_two_pow h
  have hp : CRC_POLY.testBit 31 = true := by decide
  rw [Nat.testBit_xor, ha, hp] at h31
  simp at h31

/-- The CRC round is injective on 32-bit states: the shifted-out parity
bit is recoverable from bit 31 because the polynomial's top bit is set. -/
theorem crcRound_inj {s t : Nat} (hs : s < 2 ^ 32) (ht : t < 2 ^ 32)
    (h : crcRound s = crcRound t) : s = t := by
  unfold crcRound at h
  rcases Nat.mod_two_eq_zero_or_one s with hs2 | hs2 <;>
    rcases Nat.mod_two_eq_zero_or_one t with ht2 | ht2
  · simp only [hs2, ht2] at h
    norm_num at h
    omega
  · rw [if_neg (by omega), if_pos ht2] at h
    simp only [Nat.xor_zero] at h
    have h2 := crcRound_hi (a := t / 2) (by omega)
    have h3 : (2 : Nat) ^ 31 ≤ s / 2 := h ▸ h2
    omega
  · rw [if_pos hs2, if_neg (by omega)] at h
    simp only [Nat.xor_zero] at h
    have h2 := crcRound_hi (a := s / 2) (by omega)
    have h3 : (2 : Nat) ^ 31 ≤ t / 2 := h ▸ h2
    omega
  · rw [if_pos hs2, if_pos ht2] at h
    have h4 : (s / 2 ^^^ CRC_POLY) ^^^ CRC_POLY = (t / 2 ^^^ CRC_POLY) ^^^ CRC_POLY := by
      rw [h]
    rw [Nat.xor_cancel_right, Nat.xor_cancel_right] at h4
    omega

/-- The byte step keeps the state inside 32 bits. -/
theorem crcByte_lt {s b : Nat} (hs : s < 2 ^ 32) (hb : b < 2 ^ 32) :
    crcByte s b < 2 ^ 32 := by
  unfold crcByte
  have h0 : s ^^^ b < 2 ^ 32 := Nat.xor_lt_two_pow hs hb
  exact crcRound_lt (crcRound_lt (crcRound_lt (crcRound_lt
    (crcRound_lt (crcRound_lt (crcRound_lt (crcRound_lt h0)))))))

/-- The byte step determines `state ^^^ byte` (eight injective rounds). -/
theorem crcByte_inj {s t b c : Nat} (hs : s < 2 ^ 32) (ht : t < 2 ^ 32)
    (hb : b < 2 ^ 32) (hc : c < 2 ^ 32)
    (h : crcByte s b = crcByte t c) : s ^^^ b = t ^^^ c := by
  unfold crcByte at h
  have l0 : s ^^^ b < 2 ^ 32 := Nat.xor_lt_two_pow hs hb
  have m0 : t ^^^ c < 2 ^ 32 := Nat.xor_lt_two_pow ht hc
  have l1 := crcRound_lt l0
  have m1 := crcRound_lt m0
  have l2 := crcRound_lt l1
  have m2 := crcRound_lt m1
  have l3 := crcRound_lt l2
  have m3 := crcRound_lt m2
  have l4 := crcRound_lt l3
  have m4 := crcRound_lt m3
  have l5 := crcRound_lt l4
  have m5 := crcRound_lt m4
  have l6 := crcRound_lt l5
  have m6 := crcRound_lt m5
  have l7 := crcRound_lt l6
  have m7 := crcRound_lt m6
  exact crcRound_inj l0 m0 (crcRound_inj l1 m1 (crcRound_inj l2 m2
    (crcRound_inj l3 m3 (crcRound_inj l4 m4 (crcRound_inj l5 m5
      (crcRound_inj l6 m6 (crcRound_inj l7 m7 h)))))))

/-- The byte step is injective in the state for a fixed byte. -/
theorem crcByte_state_inj {s t b : Nat} (hs : s < 2 ^ 32) (ht : t < 2 ^ 32)
    (hb : b < 2 ^ 32) (h : crcByte s b = crcByte t b) : s = t := by
  have h2 := crcByte_inj hs ht hb hb h
  have h3 : (s ^^^ b) ^^^ b = (t ^^^ b) ^^^ b := by rw [h2]
  rwa [Nat.xor_cancel_right, Nat.xor_cancel_right] at h3

/-- The byte step separates distinct bytes for a fixed state. -/
theorem crcByte_byte_inj {s b c : Nat} (hs : s < 2 ^ 32) (hb : b < 2 ^ 32)
    (hc : c < 2 ^ 32) (hne : b ≠ c) : crcByte s b ≠ crcByte s c := by
  intro h
  have h2 := crcByte_inj hs hs hb hc h
  have h3 : s ^^^ (s ^^^ b) = s ^^^ (s ^^^ c) := by rw [h2]
  rw [Nat.xor_cancel_left, Nat.xor_cancel_left] at h3
  exact hne h3

/-- Unfolding `crcFold` over an append. -/
theorem crcFold_append (s : Nat) (l1 l2 : List Nat) :
    crcFold s (l1 ++ l2) = crcFold (crcFold s l1) l2 := by
  simp [crcFold]

/-- Unfolding `crcFold` over a cons. -/
theorem crcFold_cons (s a : Nat) (l : List Nat) :
    crcFold s (a :: l) = crcFold (crcByte s a) l := rfl

/-- Folding bytes keeps the state inside 32 bits. -/
theorem crcFold_lt {bs : List Nat} {s : Nat} (hs : s < 2 ^ 32)
    (hb : ∀ b ∈ bs, b < 256) : crcFold s bs < 2 ^ 32 := by
  induction bs generalizing s with
  | nil => simpa [crcFold] using hs
  | cons a l ih =>
    rw [crcFold_cons]
    have ha : a < 256 := hb a (List.mem_cons_self a l)
    exact ih (crcByte_lt hs (lt_trans ha (by norm_num)))
      (fun b hbm => hb b (List.mem_cons_of_mem a hbm))

/-- Folding the same byte string is injective in the starting state. -/
theorem crcFold_state_inj {bs : List Nat} {s t : Nat} (hs : s < 2 ^ 32)
    (ht : t < 2 ^ 32) (hb : ∀ b ∈ bs, b < 256)
    (h : crcFold s bs = crcFold t bs) : s = t := by
  induction bs generalizing s t with
  | nil => simpa [crcFold] using h
  | cons a l ih =>
    rw [crcFold_cons, crcFold_cons] at h
    have ha : a < 2 ^ 32 :=
      lt_trans (hb a (List.mem_cons_self a l)) (by norm_num)
    have h2 := ih (crcByte_lt hs ha) (crcByte_lt ht ha)
      (fun b hbm => hb b (List.mem_cons_of_mem a hbm)) h
    exact crcByte_state_inj hs ht ha h2

/-- Two byte strings that differ in exactly one byte fold to different
states (this is the single-byte error-detection property of CRC32). -/
theorem crcFold_ne_diff {pre suf : List Nat} {s a c : Nat}
    (hs : s < 2 ^ 32) (hpre : ∀ b ∈ pre, b < 256) (hsuf : ∀ b ∈ suf, b < 256)
    (ha : a < 256) (hc : c < 256) (hne : a ≠ c) :
    crcFold s (pre ++ a :: suf) ≠ crcFold s (pre ++ c :: suf) := by
  intro h
  rw [crcFold_append, crcFold_append, crcFold_cons, crcFold_cons] at h
  have hs0 : crcFold s pre < 2 ^ 32 := crcFold_lt hs hpre
  have ha32 : a < 2 ^ 32 := lt_trans ha (by norm_num)
  have hc32 : c < 2 ^ 32 := lt_trans hc (by norm_num)
  have h2 := crcFold_state_inj (crcByte_lt hs0 ha32) (crcByte_lt hs0 hc32) hsuf h
  exact crcByte_byte_inj hs0 ha32 hc32 hne h2

/-- `esp_rom_crc32_le` keeps its result inside 32 bits. -/
theorem romCrc32le_lt {c0 : Nat} {bs : List Nat} (hc : c0 < 2 ^ 32)
    (hb : ∀ b ∈ bs, b < 256) : romCrc32le c0 bs < 2 ^ 32 := by
  unfold romCrc32le
  exact Nat.xor_lt_two_pow (crcFold_lt (Nat.xor_lt_two_pow hc (by decide)) hb)
    (by decide)

/-- `esp_rom_crc32_le` separates byte strings differing in one byte. -/
theorem romCrc32le_ne_diff {c0 : Nat} {pre suf : List Nat} {a c : Nat}
    (hc0 : c0 < 2 ^ 32) (hpre : ∀ b ∈ pre, b < 256)
    (hsuf : ∀ b ∈ suf, b < 256) (ha : a < 256) (hc : c < 256) (hne : a ≠ c) :
    romCrc32le c0 (pre ++ a :: suf) ≠ romCrc32le c0 (pre ++ c :: suf) := by
  intro h
  unfold romCrc32le at h
  have h2 : (crcFold (c0 ^^^ 0xFFFFFFFF) (pre ++ a :: suf) ^^^ 0xFFFFFFFF) ^^^ 0xFFFFFFFF
      = (crcFold (c0 ^^^ 0xFFFFFFFF) (pre ++ c :: suf) ^^^ 0xFFFFFFFF) ^^^ 0xFFFFFFFF := by
    rw [h]
  rw [Nat.xor_cancel_right, Nat.xor_cancel_right] at h2
  exact crcFold_ne_diff (Nat.xor_lt_two_pow hc0 (by decide)) hpre hsuf ha hc hne h2

/-- Decomposition of a list at an index. -/
theorem list_take_get_drop : ∀ (l : List Nat) (i : Nat) (h : i < l.length),
    l = l.take i ++ l.get ⟨i, h⟩ :: l.drop (i + 1)
  | _ :: _, 0, _ => rfl
  | a :: l, i + 1, h => by
    have h2 : i < l.length := by simpa using Nat.lt_of_succ_lt_succ h
    simpa using congrArg (a :: ·) (list_take_get_drop l i h2)

/-- The bytes of `leBytes2` are bytes. -/
theorem leBytes2_bound (n : Nat) : ∀ b ∈ leBytes2 n, b < 256 := by
  intro b hb
  simp [leBytes2] at hb
  rcases hb with h | h <;> omega

/-- Corrupting one payload byte (without touching the length) changes the
checksum stored by `RtcString::set`. -/
theorem crcOfLenBytes_set_ne {bs : List Nat} {i b : Nat}
    (hb256 : ∀ x ∈ bs, x < 256) (hi : i < bs.length) (hbb : b < 256)
    (hne : b ≠ bs.get ⟨i, hi⟩) :
    crcOfLenBytes bs.length bs ≠ crcOfLenBytes bs.length (bs.set i b) := by
  unfold crcOfLenBytes
  set c0 := romCrc32le CRC_SEED (leBytes2 bs.length) with hc0def
  have hc0 : c0 < 2 ^ 32 := romCrc32le_lt (by decide) (leBytes2_bound bs.length)
  have hdecomp := list_take_get_drop bs i hi
  have hset : bs.set i b = bs.take i ++ b :: bs.drop (i + 1) :=
    List.set_eq_take_cons_drop b hi
  rw [hset]
  conv_lhs => rw [hdecomp]
  have hpre : ∀ x ∈ bs.take i, x < 256 := fun x hx => hb256 x (List.take_subset i bs hx)
  have hsuf : ∀ x ∈ bs.drop (i + 1), x < 256 := fun x hx =>
    hb256 x (List.drop_subset (i + 1) bs hx)
  have hget : bs.get ⟨i, hi⟩ < 256 := hb256 _ (List.get_mem bs i hi)
  exact romCrc32le_ne_diff hc0 hpre hsuf hget hbb (fun hx => hne hx.symm)

end Core

set_option maxRecDepth 10000 in
/-- Claim C9, counterexample to the claimed equivalence: the token
written by `set("")` (reachable, e.g. when the backend returns an empty
token string) has a stored CRC that matches the CRC recomputed over its
(length, bytes) and an expiry in the future, yet `is_valid()` is false
because the stored length is 0.  So "is_valid ⇔ CRC matches ∧ (no expiry
∨ now < expiry)" fails without a nonzero-length condition. -/
theorem claim_C9_counterexample :
    (Fixtures.tokenEmptySet.token.crc ==
        Core.crcOfLenBytes Fixtures.tokenEmptySet.token.bytes.length
          Fixtures.tokenEmptySet.token.bytes) = true ∧
    Fixtures.tokenEmptySet.expires_at.is_valid = true ∧
    (0 : Int) < Fixtures.tokenEmptySet.expires_at.epoch_ms ∧
    Core.RtcAuthToken.is_valid Fixtures.tokenEmptySet 0 = false := by
  refine ⟨by decide, by decide, by decide, by decide⟩

/-- Claim C9 (amended): (1) a survivable token whose stored length is 0
is never valid; (2) for every token written by `set()`, changing any
single byte of the stored data within `[0, length)` to a different value
without recomputing the CRC makes `is_valid()` false; (3) `is_valid()`
holds iff the stored length is nonzero AND the stored CRC matches the
CRC computed over (length, bytes) AND (no expiry is set OR the current
time is before the expiry). -/
theorem claim_C9_token_validity :
    (∀ (t : Core.RtcAuthToken) (now : Int), t.token.bytes.length = 0 →
        t.is_valid now = false) ∧
    (∀ (t : Core.RtcAuthToken) (str : List Nat) (exp now : Int) (i b : Nat),
        (∀ x ∈ str, x < 256) →
        ∀ hi : i < (t.setFn str exp).token.bytes.length,
          b < 256 → b ≠ (t.setFn str exp).token.bytes.get ⟨i, hi⟩ →
          Core.RtcAuthToken.is_valid
            ⟨⟨(t.setFn str exp).token.crc,
              (t.setFn str exp).token.bytes.set i b⟩,
             (t.setFn str exp).expires_at⟩ now = false) ∧
    (∀ (t : Core.RtcAuthToken) (now : Int),
        t.is_valid now =
          (decide (0 < t.token.bytes.length) &&
            (t.token.crc ==
              Core.crcOfLenBytes t.token.bytes.length t.token.bytes) &&
            (!t.expires_at.is_valid ||
              decide (now < t.expires_at.epoch_ms)))) := by
  refine ⟨?_, ?_, ?_⟩
  · intro t now h
    simp [Core.RtcAuthToken.is_valid, Core.RtcString.is_valid, h]
  · intro t str exp now i b hstr hi hb hne
    have hbs : ∀ x ∈ str.take 2047, x < 256 := fun x hx =>
      hstr x (List.take_subset _ _ hx)
    have hcrc := Core.crcOfLenBytes_set_ne hbs hi hb hne
    have htok : Core.RtcString.is_valid
        ⟨Core.crcOfLenBytes (str.take 2047).length (str.take 2047),
         (str.take 2047).set i b⟩ = false := by
      simp only [Core.RtcString.is_valid, List.length_set]
      rw [beq_eq_false_iff_ne.mpr hcrc, Bool.and_false]
    have hstep : ∀ (tk : Core.RtcString) (ex : Core.RtcTimestamp) (n : Int),
        tk.is_valid = false → Core.RtcAuthToken.is_valid ⟨tk, ex⟩ n = false := by
      intro tk ex n h
      simp [Core.RtcAuthToken.is_valid, h]
    exact hstep _ _ _ htok
  · intro t now
    rfl

/-- Claim C9, witness: corrupting the first byte of a freshly written
two-byte token invalidates it. -/
theorem claim_C9_witness :
    Core.RtcAuthToken.is_valid
      ⟨⟨(Core.RtcAuthToken.setFn ⟨⟨0, []⟩, ⟨0, 0⟩⟩ [104, 105] 0).token.crc,
        (Core.RtcAuthToken.setFn ⟨⟨0, []⟩, ⟨0, 0⟩⟩ [104, 105] 0).token.bytes.set 0 1⟩,
       (Core.RtcAuthToken.setFn ⟨⟨0, []⟩, ⟨0, 0⟩⟩ [104, 105] 0).expires_at⟩ 0 = false :=
  claim_C9_token_validity.2.1 ⟨⟨0, []⟩, ⟨0, 0⟩⟩ [104, 105] 0 0 0 1
    (by decide) (by decide) (by decide) (by decide)

set_option maxRecDepth 40000 in
/-- Claim C1 (code bug): `Revoked` is not terminal in the code.  From the
reachable state obtained by `handle_response_status(403)` (auth state
`Revoked`, token cleared), a single `authenticate()` call whose backend
response is `200 {"token":"t"}` returns state `Authenticated` and sets
the auth state back to `Authenticated` — no external credential-clearing
call involved.  `authenticate()` lacks the `Revoked` guard that
`refresh()` and `get_auth_header()` both have, contradicting the
documented invariant that `Revoked` is terminal. -/
theorem claim_C1_revoked_escape :
    Fixtures.apRevoked.state = Cloud.AuthState.Revoked ∧
    (Cloud.authenticate Fixtures.apRevoked 0 true
        (.ok ⟨200, Fixtures.body200⟩)).1.state = Cloud.AuthState.Authenticated ∧
    (Cloud.authenticate Fixtures.apRevoked 0 true
        (.ok ⟨200, Fixtures.body200⟩)).2.1.state = Cloud.AuthState.Authenticated := by
  refine ⟨by decide, by decide, by decide⟩

/-- Claim C5: when the survivable (RTC) token is valid at call time,
`authenticate()` returns state `Authenticated`, sets the auth state to
`Authenticated` (changing nothing else), and performs zero network
calls. -/
theorem claim_C5_fast_path :
    ∀ (ap : Cloud.AuthProv) (now : Int) (client_ok : Bool)
      (perform : Except Int Cloud.HttpResp) (tok : Core.RtcAuthToken),
      ap.token = some tok → tok.is_valid now = true →
      Cloud.authenticate ap now client_ok perform =
        (⟨.Authenticated, .None⟩, { ap with state := .Authenticated }, 0) := by
  intro ap now client_ok perform tok htok hvalid
  simp [Cloud.authenticate, htok, hvalid]

set_option maxRecDepth 40000 in
/-- Claim C5, witness: a provider holding a freshly written, unexpired
token authenticates without any network interaction. -/
theorem claim_C5_witness :
    Cloud.authenticate Fixtures.apFresh 0 true (.error Core.ESP_FAIL) =
      (⟨.Authenticated, .None⟩,
       { Fixtures.apFresh with state := .Authenticated }, 0) :=
  claim_C5_fast_path Fixtures.apFresh 0 true (.error Core.ESP_FAIL)
    Fixtures.tokenFresh rfl (by decide)

/-- Claim C10: for every HTTP status code other than 401 and 403,
`handle_response_status` changes neither the auth state nor the stored
survivable token (the provider is returned completely unchanged); in
particular 2xx, 429 and 5xx statuses never clear the token. -/
theorem claim_C10_handle_status_frame :
    ∀ (ap : Cloud.AuthProv) (code : Int), code ≠ 401 → code ≠ 403 →
      Cloud.handle_response_status ap code = ap := by
  intro ap code h1 h2
  simp [Cloud.handle_response_status, Cloud.STATUS_UNAUTHORIZED,
    Cloud.STATUS_FORBIDDEN, h1, h2]

/-- Claim C10, witness: a 500 response leaves the provider unchanged. -/
theorem claim_C10_witness :
    Cloud.handle_response_status Fixtures.apInit 500 = Fixtures.apInit :=
  claim_C10_handle_status_frame Fixtures.apInit 500 (by decide) (by decide)

namespace Transport

/-- The retry loop performs at least one invocation of the wrapped
transport (the count output strictly exceeds the count input). -/
theorem sendAux_count (p : RetryPolicy) (oracle : Nat → Except Int Response) :
    ∀ (fuel attempts k : Nat), k + 1 ≤ (sendAux p oracle fuel attempts k).2 := by
  intro fuel
  induction fuel with
  | zero => intro attempts k; simp [sendAux]
  | succ fuel ih =>
    intro attempts k
    cases h : oracle k with
    | ok r =>
      rw [sendAux, h]
      dsimp only
      by_cases hc : (r.is_server_error && p.retry_on_server_error &&
          should_retry p attempts) = true
      · rw [if_pos hc]
        exact le_trans (by omega) (ih (attempts + 1) (k + 1))
      · rw [if_neg hc]
    | error e =>
      rw [sendAux, h]
      dsimp only
      by_cases hc : (is_retryable_error p e && should_retry p attempts) = true
      · rw [if_pos hc]
        exact le_trans (by omega) (ih (attempts + 1) (k + 1))
      · rw [if_neg hc]

end Transport

/-- Claim C2: with `max_retries = 2`, if the wrapped transport fails with
errors the policy classifies retryable on the first two invocations and
succeeds on the third, `send` returns that success having invoked the
wrapped transport exactly 3 times; if the first invocation fails with an
error classified non-retryable, `send` returns that error after exactly
1 invocation. -/
theorem claim_C2_retry_counts :
    ∀ (p : Transport.RetryPolicy) (oracle : Nat → Except Int Transport.Response),
      p.max_retries = 2 →
      ((∀ (e0 e1 : Int) (r : Transport.Response),
          oracle 0 = .error e0 → oracle 1 = .error e1 →
          Transport.is_retryable_error p e0 = true →
          Transport.is_retryable_error p e1 = true →
          oracle 2 = .ok r →
          Transport.send p oracle = (.ok r, 3)) ∧
       (∀ e : Int, oracle 0 = .error e →
          Transport.is_retryable_error p e = false →
          Transport.send p oracle = (.error e, 1))) := by
  intro p oracle hmax
  constructor
  · intro e0 e1 r h0 h1 hr0 hr1 h2
    simp [Transport.send, Transport.sendAux, h0, h1, h2, hr0, hr1,
      Transport.should_retry, hmax]
  · intro e h0 hr
    simp [Transport.send, Transport.sendAux, h0, hr, hmax]

/-- Claim C2, witness: a transport that times out twice then answers 200
is invoked 3 times; one that fails with `ESP_ERR_INVALID_ARG` is invoked
once. -/
theorem claim_C2_witness :
    Transport.send Fixtures.policyTwo Fixtures.oracleFlaky = (.ok ⟨200, []⟩, 3) ∧
    Transport.send Fixtures.policyTwo Fixtures.oracleFatal =
      (.error Core.ESP_ERR_INVALID_ARG, 1) :=
  ⟨(claim_C2_retry_counts Fixtures.policyTwo Fixtures.oracleFlaky rfl).1
      Core.ESP_ERR_TIMEOUT Core.ESP_ERR_TIMEOUT ⟨200, []⟩ rfl rfl (by decide)
      (by decide) rfl,
   (claim_C2_retry_counts Fixtures.policyTwo Fixtures.oracleFatal rfl).2
      Core.ESP_ERR_INVALID_ARG rfl (by decide)⟩

/-- Claim C3: the retry classification reproduces the spec table — a
timeout is retryable iff `retry_on_timeout`; generic failure,
invalid-state, out-of-memory and the transport-layer connection error
range `0x7000..0x70FF` are retryable iff `retry_on_connection_error`;
every other error code is never retryable; a transport-successful
response with a 5xx status is retried iff `retry_on_server_error`
(returned immediately after one invocation when the flag is clear, at
least one further invocation when it is set and budget remains); and a
successful response below 500 is returned after exactly one
invocation. -/
theorem claim_C3_classification :
    ∀ p : Transport.RetryPolicy,
      (Transport.is_retryable_error p Core.ESP_ERR_TIMEOUT =
        p.retry_on_timeout) ∧
      (Transport.is_retryable_error p Core.ESP_FAIL =
        p.retry_on_connection_error) ∧
      (Transport.is_retryable_error p Core.ESP_ERR_INVALID_STATE =
        p.retry_on_connection_error) ∧
      (Transport.is_retryable_error p Core.ESP_ERR_NO_MEM =
        p.retry_on_connection_error) ∧
      (∀ e : Int, 0x7000 ≤ e → e ≤ 0x70FF →
          Transport.is_retryable_error p e = p.retry_on_connection_error) ∧
      (∀ e : Int, e ≠ Core.ESP_ERR_TIMEOUT → e ≠ Core.ESP_FAIL →
          e ≠ Core.ESP_ERR_INVALID_STATE → e ≠ Core.ESP_ERR_NO_MEM →
          ¬((0x7000 : Int) ≤ e ∧ e ≤ 0x70FF) →
          Transport.is_retryable_error p e = false) ∧
      (∀ (oracle : Nat → Except Int Transport.Response)
          (r : Transport.Response), oracle 0 = .ok r → 500 ≤ r.status_code →
          (p.retry_on_server_error = false →
            Transport.send p oracle = (.ok r, 1)) ∧
          (p.retry_on_server_error = true → 0 < p.max_retries →
            2 ≤ (Transport.send p oracle).2)) ∧
      (∀ (oracle : Nat → Except Int Transport.Response)
          (r : Transport.Response), oracle 0 = .ok r → r.status_code < 500 →
          Transport.send p oracle = (.ok r, 1)) := by
  intro p
  refine ⟨?_, ?_, ?_, ?_, ?_, ?_, ?_, ?_⟩
  · norm_num [Transport.is_retryable_error, Core.ESP_ERR_TIMEOUT]
  · norm_num [Transport.is_retryable_error, Core.ESP_FAIL,
      Core.ESP_ERR_TIMEOUT, Core.ESP_ERR_INVALID_STATE, Core.ESP_ERR_NO_MEM]
  · norm_num [Transport.is_retryable_error, Core.ESP_FAIL,
      Core.ESP_ERR_TIMEOUT, Core.ESP_ERR_INVALID_STATE, Core.ESP_ERR_NO_MEM]
  · norm_num [Transport.is_retryable_error, Core.ESP_FAIL,
      Core.ESP_ERR_TIMEOUT, Core.ESP_ERR_INVALID_STATE, Core.ESP_ERR_NO_MEM]
  · intro e h1 h2
    unfold Transport.is_retryable_error Core.ESP_ERR_TIMEOUT
      Core.ESP_ERR_INVALID_STATE Core.ESP_FAIL Core.ESP_ERR_NO_MEM
    rw [if_neg (by omega), if_neg (by omega), if_pos (by omega)]
  · intro e h1 h2 h3 h4 h5
    unfold Transport.is_retryable_error Core.ESP_ERR_TIMEOUT
      Core.ESP_ERR_INVALID_STATE Core.ESP_FAIL Core.ESP_ERR_NO_MEM
    unfold Core.ESP_ERR_TIMEOUT at h1
    unfold Core.ESP_FAIL at h2
    unfold Core.ESP_ERR_INVALID_STATE at h3
    unfold Core.ESP_ERR_NO_MEM at h4
    rw [if_neg (by omega), if_neg (by omega), if_neg (by omega)]
  · intro oracle r h0 hsrv
    have hse : r.is_server_error = true := by
      simp [Transport.Response.is_server_error, hsrv]
    constructor
    · intro hflag
      simp [Transport.send, Transport.sendAux, h0, hse, hflag]
    · intro hflag hmax
      rw [Transport.send, Transport.sendAux, h0]
      dsimp only
      rw [if_pos (by simp [hse, hflag, Transport.should_retry, hmax])]
      exact Transport.sendAux_count p oracle p.max_retries 1 1
  · intro oracle r h0 hsrv
    have hse : r.is_server_error = false := by
      simp [Transport.Response.is_server_error]
      omega
    simp [Transport.send, Transport.sendAux, h0, hse]

/-- Claim C3, witness: concrete classifications under the policy with
`retry_on_timeout` and `retry_on_connection_error` set but
`retry_on_server_error` clear, and a 503 response returned unretried
under that policy. -/
theorem claim_C3_witness :
    Transport.is_retryable_error ⟨1, true, false, true⟩ Core.ESP_ERR_TIMEOUT = true ∧
    Transport.is_retryable_error ⟨1, true, false, true⟩ 0x7050 = true ∧
    Transport.is_retryable_error ⟨1, true, false, true⟩ 0x102 = false ∧
    Transport.send ⟨1, true, false, true⟩ Fixtures.oracle503 = (.ok ⟨503, []⟩, 1) :=
  ⟨(claim_C3_classification ⟨1, true, false, true⟩).1,
   (claim_C3_classification ⟨1, true, false, true⟩).2.2.2.2.1 0x7050
      (by decide) (by decide),
   (claim_C3_classification ⟨1, true, false, true⟩).2.2.2.2.2.1 0x102
      (by decide) (by decide) (by decide) (by decide) (by decide),
   ((claim_C3_classification ⟨1, true, false, true⟩).2.2.2.2.2.2.1
      Fixtures.oracle503 ⟨503, []⟩ rfl (by decide)).1 rfl⟩

namespace Network

/-- Characterisation of the backoff loop when the configured maximum
leaves no room for 32-bit overflow: clamped to the maximum, the loop
computes exactly `initial * 2 ^ retry_count`. -/
theorem backoffLoop_min {maxB : Nat} (hmax : maxB ≤ 2 ^ 31) :
    ∀ (r b : Nat), b < 2 ^ 32 →
      min (backoffLoop maxB r b) maxB = min (b * 2 ^ r) maxB := by
  intro r
  induction r with
  | zero =>
    intro b _
    simp [backoffLoop]
  | succ n ih =>
    intro b hb
    rw [backoffLoop]
    by_cases hc : b < maxB
    · rw [if_pos hc]
      have hdouble : b * 2 % 2 ^ 32 = b * 2 := Nat.mod_eq_of_lt (by omega)
      rw [hdouble, ih (b * 2) (by omega)]
      have harr : b * 2 * 2 ^ n = b * 2 ^ (n + 1) := by ring
      rw [harr]
    · rw [if_neg hc]
      have h1 : maxB ≤ b := le_of_not_lt hc
      have h2 : maxB ≤ b * 2 ^ (n + 1) :=
        le_trans h1 (Nat.le_mul_of_pos_right b (pow_pos (by norm_num) (n + 1)))
      rw [Nat.min_eq_right h1, Nat.min_eq_right h2]

end Network

/-- Claim C4, counterexample: with `uint32_t` bounds
`initial = 3000000000` and `max_delay = 4294967295`, the doubling
overflows 32 bits, so `backoff(1) = 1705032704` instead of
`min(initial * 2, max_delay) = 4294967295`, and the function is not
monotone (`backoff(1) < backoff(0)`). -/
theorem claim_C4_counterexample :
    Network.calculate_backoff Fixtures.cfgOverflow 1 ≠
      min (Fixtures.cfgOverflow.initial_backoff_ms * 2 ^ 1)
        Fixtures.cfgOverflow.max_backoff_ms ∧
    Network.calculate_backoff Fixtures.cfgOverflow 1 <
      Network.calculate_backoff Fixtures.cfgOverflow 0 := by
  refine ⟨by decide, by decide⟩

/-- Claim C4 (amended): whenever the configured bounds rule out 32-bit
overflow (`max_delay ≤ 2^31`; `initial` is a `uint32_t`), the
reconnection backoff satisfies
`backoff(retry_count) = min(initial * 2 ^ retry_count, max_delay)` for
every `retry_count ≥ 0` and is monotonically non-decreasing in
`retry_count`. -/
theorem claim_C4_backoff :
    ∀ (cfg : Network.WifiConfig) (r1 r2 : Nat),
      cfg.initial_backoff_ms < 2 ^ 32 → cfg.max_backoff_ms ≤ 2 ^ 31 →
      (Network.calculate_backoff cfg r1 =
        min (cfg.initial_backoff_ms * 2 ^ r1) cfg.max_backoff_ms) ∧
      (r1 ≤ r2 →
        Network.calculate_backoff cfg r1 ≤ Network.calculate_backoff cfg r2) := by
  intro cfg r1 r2 hinit hmax
  have heq : ∀ r : Nat, Network.calculate_backoff cfg r =
      min (cfg.initial_backoff_ms * 2 ^ r) cfg.max_backoff_ms := by
    intro r
    unfold Network.calculate_backoff
    exact Network.backoffLoop_min hmax r cfg.initial_backoff_ms hinit
  refine ⟨heq r1, ?_⟩
  intro h12
  rw [heq r1, heq r2]
  exact min_le_min
    (Nat.mul_le_mul_left _ (Nat.pow_le_pow_right (by norm_num) h12))
    (le_refl _)

/-- Claim C4, witness: with the default bounds (1000 ms initial,
60000 ms cap) the formula and monotonicity hold at retries 2 and 5. -/
theorem claim_C4_witness :
    Network.calculate_backoff Fixtures.cfgRetries3 2 = min (1000 * 2 ^ 2) 60000 ∧
    Network.calculate_backoff Fixtures.cfgRetries3 2 ≤
      Network.calculate_backoff Fixtures.cfgRetries3 5 :=
  ⟨(claim_C4_backoff Fixtures.cfgRetries3 2 5 (by decide) (by decide)).1,
   (claim_C4_backoff Fixtures.cfgRetries3 2 5 (by decide) (by decide)).2
      (by decide)⟩

namespace Network

/-- One more unexpected disconnect in the exhausted regime (`Failed`,
retry counter at the budget of 3): the state machine bounces through
`Disconnected` back to `Failed`, publishing the disconnected and
connection-failed events, without scheduling anything. -/
theorem handle_disconnect_exhausted (s : WifiSt)
    (h1 : s.state = WifiState.Failed) (h2 : s.retry_count = 3)
    (h3 : s.pending_valid = true) :
    handle_disconnect Fixtures.cfgRetries3 s =
      { s with
        state := .Failed,
        events := (s.events ++ [.WifiDisconnected]) ++ [.WifiConnectionFailed] } := by
  simp [handle_disconnect, set_state, schedule_reconnect, h1, h2, h3,
    Fixtures.cfgRetries3]

/-- After `4 + k` unexpected disconnects from the initial state the
manager is stuck in `Failed` with retry counter and schedule count 3 and
the connection-failed event published. -/
theorem runDisc_exhausted_inv (k : Nat) :
    (runDisc Fixtures.cfgRetries3 Fixtures.wifiInit (4 + k)).state = WifiState.Failed ∧
    (runDisc Fixtures.cfgRetries3 Fixtures.wifiInit (4 + k)).retry_count = 3 ∧
    (runDisc Fixtures.cfgRetries3 Fixtures.wifiInit (4 + k)).pending_valid = true ∧
    (runDisc Fixtures.cfgRetries3 Fixtures.wifiInit (4 + k)).scheduled = 3 ∧
    NetworkEvent.WifiConnectionFailed ∈
      (runDisc Fixtures.cfgRetries3 Fixtures.wifiInit (4 + k)).events := by
  induction k with
  | zero => refine ⟨by decide, by decide, by decide, by decide, by decide⟩
  | succ k ih =>
    obtain ⟨i1, i2, i3, i4, i5⟩ := ih
    have hstep := handle_disconnect_exhausted _ i1 i2 i3
    have hrun : runDisc Fixtures.cfgRetries3 Fixtures.wifiInit (4 + (k + 1)) =
        handle_disconnect Fixtures.cfgRetries3
          (runDisc Fixtures.cfgRetries3 Fixtures.wifiInit (4 + k)) := rfl
    rw [hrun, hstep]
    exact ⟨rfl, i2, i3, i4, by simp [i5]⟩

end Network

/-- Claim C6: from `Disconnected` with pending credentials and
`max_retries = 3`, the first three unexpected-disconnect events each
schedule a reconnect attempt (3 total, never more) without reaching
`Failed`; from the fourth event on the manager is in `Failed` with
exactly 3 scheduled attempts and the connection-failed event published;
and a successful address acquisition, from any state whatsoever, resets
the retry counter to 0 and sets the state to `Connected`. -/
theorem claim_C6_reconnect_budget :
    (∀ n : Nat, n ≤ 3 →
        (Network.runDisc Fixtures.cfgRetries3 Fixtures.wifiInit n).scheduled = n ∧
        (Network.runDisc Fixtures.cfgRetries3 Fixtures.wifiInit n).state ≠
          Network.WifiState.Failed) ∧
    (∀ n : Nat, 4 ≤ n →
        (Network.runDisc Fixtures.cfgRetries3 Fixtures.wifiInit n).state =
          Network.WifiState.Failed ∧
        (Network.runDisc Fixtures.cfgRetries3 Fixtures.wifiInit n).scheduled = 3 ∧
        Network.NetworkEvent.WifiConnectionFailed ∈
          (Network.runDisc Fixtures.cfgRetries3 Fixtures.wifiInit n).events) ∧
    (∀ s : Network.WifiSt,
        (Network.handle_got_ip s).retry_count = 0 ∧
        (Network.handle_got_ip s).state = Network.WifiState.Connected) := by
  refine ⟨?_, ?_, ?_⟩
  · intro n hn
    interval_cases n
    · exact ⟨by decide, by decide⟩
    · exact ⟨by decide, by decide⟩
    · exact ⟨by decide, by decide⟩
    · exact ⟨by decide, by decide⟩
  · intro n hn
    obtain ⟨k, rfl⟩ : ∃ k, n = 4 + k := ⟨n - 4, by omega⟩
    obtain ⟨i1, _, _, i4, i5⟩ := Network.runDisc_exhausted_inv k
    exact ⟨i1, i4, i5⟩
  · intro s
    exact ⟨rfl, rfl⟩

/-- Claim C6, witness: three disconnects schedule three attempts, the
fifth leaves the manager in `Failed`, and an address acquisition resets
the retry counter. -/
theorem claim_C6_witness :
    (Network.runDisc Fixtures.cfgRetries3 Fixtures.wifiInit 3).scheduled = 3 ∧
    (Network.runDisc Fixtures.cfgRetries3 Fixtures.wifiInit 5).state =
      Network.WifiState.Failed ∧
    (Network.handle_got_ip Fixtures.wifiInit).retry_count = 0 :=
  ⟨(claim_C6_reconnect_budget.1 3 (by decide)).1,
   (claim_C6_reconnect_budget.2.1 5 (by decide)).1,
   (claim_C6_reconnect_budget.2.2 Fixtures.wifiInit).1⟩

/-- Claim C8: for every configuration whose proof-of-possession secret
is empty (null pointer or zero-length string), `start_provisioning` on
an initialized manager returns `InvalidArgument` and leaves the whole
manager state — connection state, timers, provisioning session —
untouched. -/
theorem claim_C8_pop_guard :
    ∀ (s : Network.WifiSt) (cfg : Network.ProvisioningConfig)
      (o : Network.ProvOracle), Network.popEmpty cfg.pop = true →
      Network.start_provisioningFn true cfg o s =
        (.error Core.ESP_ERR_INVALID_ARG, s) := by
  intro s cfg o h
  simp [Network.start_provisioningFn, h]

/-- Claim C8, witness: the empty proof-of-possession string is rejected
with no state change. -/
theorem claim_C8_witness :
    Network.start_provisioningFn true Fixtures.cfgNoPop Fixtures.provOracleOk
        Fixtures.wifiInit = (.error Core.ESP_ERR_INVALID_ARG, Fixtures.wifiInit) :=
  claim_C8_pop_guard Fixtures.wifiInit Fixtures.cfgNoPop Fixtures.provOracleOk
    (by decide)

namespace Cloud

/-- The object loop never grows the buffer past `MAX_COMMANDS`. -/
theorem parseLoopAux_length (json : List Char) :
    ∀ (fuel pos : Nat) (acc : List Command), acc.length ≤ MAX_COMMANDS →
      (parseLoopAux json fuel pos acc).length ≤ MAX_COMMANDS := by
  intro fuel
  induction fuel with
  | zero =>
    intro pos acc h
    simpa [parseLoopAux] using h
  | succ fuel ih =>
    intro pos acc h
    rw [parseLoopAux]
    by_cases h1 : pos < json.length ∧ acc.length < MAX_COMMANDS
    · rw [if_pos h1]
      cases hf : findCharFrom json lbraceChar pos with
      | none => simpa using h
      | some obj_start =>
        dsimp only
        by_cases h2 : (braceScanAux json (json.length + 1) (obj_start + 1) 1).2 ≠ 0
        · rw [if_pos h2]
          exact h
        · rw [if_neg h2]
          apply ih
          cases hp : parse_command
              (slice json obj_start
                (braceScanAux json (json.length + 1) (obj_start + 1) 1).1) with
          | some cmd =>
            simp only [List.length_append, List.length_cons, List.length_nil]
            omega
          | none => exact h
    · rw [if_neg h1]
      exact h

/-- A successful parse yields at most `MAX_COMMANDS` commands. -/
theorem parse_commands_length {json : List Char} {cmds : List Command}
    (h : parse_commands json = some cmds) : cmds.length ≤ MAX_COMMANDS := by
  unfold parse_commands at h
  cases hf1 : findSub json dataKey 0 with
  | none => rw [hf1] at h; exact absurd h (by simp)
  | some data_pos =>
    rw [hf1] at h
    dsimp only at h
    cases hf2 : findCharFrom json lbrackChar data_pos with
    | none => rw [hf2] at h; exact absurd h (by simp)
    | some array_start =>
      rw [hf2] at h
      dsimp only at h
      have hc := Option.some.inj h
      rw [← hc]
      exact parseLoopAux_length json (json.length + 1) (array_start + 1) []
        (by simp [MAX_COMMANDS])

end Cloud

set_option maxRecDepth 200000 in
/-- Claim C7: `poll(buffer)` first clears the buffer (its result is
independent of the incoming buffer contents) and issues exactly one GET
with the `status=pending` filter; a successful 204 or empty-body
response is success with zero commands; the parsed buffer never exceeds
the fixed capacity of 8 commands, and a body carrying more (witnessed by
a nine-command body) still succeeds with the excess silently dropped; a
non-empty 2xx body whose expected structure cannot be found yields
`ParseError`. -/
theorem claim_C7_poll :
    (∀ (b1 b2 : List Cloud.Command) (resp : Cloud.ApiResponse),
        Cloud.poll b1 resp = Cloud.poll b2 resp) ∧
    Cloud.pollRequest =
      ⟨.Get, ("/commands").toList, [(("status").toList, ("pending").toList)]⟩ ∧
    (∀ (buf : List Cloud.Command) (resp : Cloud.ApiResponse),
        resp.success = true →
        resp.status_code = Cloud.STATUS_NO_CONTENT ∨ resp.body.isEmpty = true →
        Cloud.poll buf resp = (⟨true, .None⟩, [])) ∧
    (∀ (buf : List Cloud.Command) (resp : Cloud.ApiResponse),
        (Cloud.poll buf resp).2.length ≤ Cloud.MAX_COMMANDS) ∧
    (∀ (buf : List Cloud.Command) (resp : Cloud.ApiResponse),
        resp.success = true → Cloud.parse_commands resp.body = none →
        resp.status_code ≠ Cloud.STATUS_NO_CONTENT → resp.body.isEmpty = false →
        Cloud.poll buf resp = (⟨false, .ParseError⟩, [])) ∧
    ((Cloud.poll [] Fixtures.respNine).1.success = true ∧
      (Cloud.poll [] Fixtures.respNine).2.length = Cloud.MAX_COMMANDS) := by
  refine ⟨?_, rfl, ?_, ?_, ?_, ?_, ?_⟩
  · intro b1 b2 resp
    rfl
  · intro buf resp h1 h2
    rcases h2 with h2 | h2 <;> simp [Cloud.poll, h1, h2]
  · intro buf resp
    unfold Cloud.poll
    by_cases hs : (!resp.success) = true
    · rw [if_pos hs]
      simp
    · rw [if_neg hs]
      by_cases h2 : resp.status_code = Cloud.STATUS_NO_CONTENT ∨
          resp.body.isEmpty = true
      · rw [if_pos h2]
        simp
      · rw [if_neg h2]
        cases hp : Cloud.parse_commands resp.body with
        | none => simp
        | some cmds =>
          dsimp only
          exact Cloud.parse_commands_length hp
  · intro buf resp h1 hp h3 h4
    unfold Cloud.poll
    rw [if_neg (by simp [h1]), if_neg (by simp [h3, h4]), hp]
  · exact by decide
  · exact by decide

/-- Claim C7, witness: a 204 response polls successfully with zero
commands. -/
theorem claim_C7_witness :
    Cloud.poll [] Fixtures.resp204 = (⟨true, .None⟩, []) :=
  claim_C7_poll.2.2.1 [] Fixtures.resp204 rfl (Or.inl rfl)
